import Mathlib

/-!
Shallow embedding of `mt103_json.py` (MT103 → JSON converter).

The Python module parses a SWIFT MT103 message with a fixed set of
`re` patterns.  Every pattern used by the source is simple enough to be
given an exact executable semantics here: leftmost search (`re.search`
tries each start position from the left), greedy character-class runs
(`[^}]+`, `[^:]+`, `[\d,]+`, …), fixed-width classes (`\d{6}`,
`[A-Z0-9]{12}`, …), the lazy group with lookahead
`(.+?)(?=:\d{2}[A-Z]?:|$)` under `re.DOTALL` (where `$` matches at the
end of the string or just before a final newline), and `re.finditer`
(non-overlapping leftmost matches).  Python dicts are modelled as ordered
association lists with Python's update/assignment semantics
(overwrite-in-place, append-if-fresh).
-/

set_option maxRecDepth 100000

namespace MT103

/-- JSON-like document values produced by the converter. -/
inductive JValue where
  | str : String → JValue
  | obj : List (String × JValue) → JValue
  | arr : List JValue → JValue

/-- Python `\s` / `str.strip` whitespace on the ASCII range. -/
def isWS (c : Char) : Bool :=
  c == ' ' || c == '\t' || c == '\n' || c == '\r' || c == '\x0b' || c == '\x0c'

/-- `[A-Z0-9]` character class. -/
def isUpperDigit (c : Char) : Bool := c.isUpper || c.isDigit

/-- Maximal run of characters satisfying `p` (greedy class repetition). -/
def takeRun (p : Char → Bool) : List Char → List Char × List Char
  | [] => ([], [])
  | c :: rest =>
    if p c then
      let (run, r) := takeRun p rest
      (c :: run, r)
    else ([], c :: rest)

/-- Exactly `n` characters all satisfying `p` (fixed-width class `p{n}`). -/
def fixedTake (p : Char → Bool) : Nat → List Char → Option (List Char × List Char)
  | 0, l => some ([], l)
  | _ + 1, [] => none
  | n + 1, c :: rest =>
    if p c then (fixedTake p n rest).map (fun tr => (c :: tr.1, tr.2))
    else none

/-- Drop a literal prefix, returning the remainder on success. -/
def stripLit : List Char → List Char → Option (List Char)
  | [], l => some l
  | _ :: _, [] => none
  | p :: ps, c :: cs => if c = p then stripLit ps cs else none

/-- `re.search` driver: try the matcher at every position from the left
(the final empty position included). -/
def searchWith {α : Type} (m : List Char → Option α) : List Char → Option α
  | [] => m []
  | c :: rest =>
    match m (c :: rest) with
    | some a => some a
    | none => searchWith m rest

/-- `re.finditer` driver with fuel: leftmost non-overlapping matches; the
matcher returns the result together with the remainder after the match. -/
def finditerAux {α : Type} (m : List Char → Option (α × List Char)) :
    Nat → List Char → List α
  | 0, _ => []
  | _ + 1, [] => []
  | fuel + 1, c :: rest =>
    match m (c :: rest) with
    | some (a, after) => a :: finditerAux m fuel after
    | none => finditerAux m fuel rest

/-- `re.finditer` over a whole string. -/
def finditerWith {α : Type} (m : List Char → Option (α × List Char)) (l : List Char) :
    List α :=
  finditerAux m l.length l

/-- Python substring containment (`needle in haystack`). -/
def containsSub (needle : List Char) : List Char → Bool
  | [] => (stripLit needle []).isSome
  | c :: rest => (stripLit needle (c :: rest)).isSome || containsSub needle rest

/-- Python `str.strip()` on a character list. -/
def pyStripL (l : List Char) : List Char :=
  ((l.dropWhile (fun c => isWS c)).reverse.dropWhile (fun c => isWS c)).reverse

/-- Python `str.strip()`. -/
def pyStrip (s : String) : String := ⟨pyStripL s.data⟩

/-- Python `str.split(sep, 1)`: text before the first separator, and
optionally the text after it. -/
def splitOnce (sep : Char) : List Char → List Char × Option (List Char)
  | [] => ([], none)
  | c :: rest =>
    if c = sep then ([], some rest)
    else
      let (pre, post) := splitOnce sep rest
      (c :: pre, post)

/-- Python `str.split('\n')` (no limit). -/
def splitAllNL : List Char → List (List Char)
  | [] => [[]]
  | c :: rest =>
    if c = '\n' then [] :: splitAllNL rest
    else
      match splitAllNL rest with
      | [] => [[c]]
      | g :: gs => (c :: g) :: gs

/-- Ordered-dict lookup. -/
def lookupA : List (String × JValue) → String → Option JValue
  | [], _ => none
  | (k, v) :: rest, key => if k = key then some v else lookupA rest key

/-- Python `dict[key] = value`: overwrite in place, else append. -/
def setKey : List (String × JValue) → String → JValue → List (String × JValue)
  | [], k, v => [(k, v)]
  | (k', v') :: rest, k, v =>
    if k' = k then (k', v) :: rest else (k', v') :: setKey rest k v

/-- Python `dict.update(extra)`. -/
def pyUpdate (d extra : List (String × JValue)) : List (String × JValue) :=
  extra.foldl (fun acc kv => setKey acc kv.1 kv.2) d

/-- A dict entry present only when an optional decode succeeded. -/
def optSingle (k : String) : Option JValue → List (String × JValue)
  | some v => [(k, v)]
  | none => []

/-- Lookup along a path of keys in nested objects. -/
def getPath : JValue → List String → Option JValue
  | v, [] => some v
  | .obj l, k :: ks =>
    match lookupA l k with
    | some w => getPath w ks
    | none => none
  | _, _ :: _ => none

/-- The lookahead `:\d{2}[A-Z]?:` of the block-4 value patterns: a colon,
two digits, an optional uppercase letter, and a colon. -/
def tagDelimAt : List Char → Bool
  | ':' :: d1 :: d2 :: ':' :: _ => d1.isDigit && d2.isDigit
  | ':' :: d1 :: d2 :: u :: ':' :: _ => d1.isDigit && d2.isDigit && u.isUpper
  | _ => false

/-- Python `$` (no MULTILINE): end of string, or just before a final newline. -/
def dollarAt : List Char → Bool
  | [] => true
  | ['\n'] => true
  | _ => false

/-- Where the lazy group `(.+?)(?=:\d{2}[A-Z]?:|$)` may stop. -/
def stopCond (s : List Char) : Bool := tagDelimAt s || dollarAt s

/-- The lazy group `(.+?)(?=:\d{2}[A-Z]?:|$)` under `re.DOTALL`: the shortest
non-empty prefix whose remainder satisfies the lookahead; returns the
captured prefix and the remainder. -/
def lazyCap : List Char → Option (List Char × List Char)
  | [] => none
  | c :: rest =>
    if stopCond rest then some ([c], rest)
    else
      match lazyCap rest with
      | some (v, after) => some (c :: v, after)
      | none => none

/-- Matcher for `:TAG:(.+?)(?=:\d{2}[A-Z]?:|$)` at the current position. -/
def matchLazyTag (tag : List Char) (s : List Char) : Option (List Char × List Char) :=
  match stripLit (':' :: (tag ++ [':'])) s with
  | some rest => lazyCap rest
  | none => none

/-- `re.search(":TAG:(.+?)(?=:\d{2}[A-Z]?:|$)", text, re.DOTALL)`. -/
def searchLazyTag (tag : List Char) (l : List Char) : Option (List Char × List Char) :=
  searchWith (matchLazyTag tag) l

/-- Matcher for field 59's pattern `:59A?:(.+?)(?=:\d{2}[A-Z]?:|$)`:
the optional `A` is tried greedily first. -/
def match59 (s : List Char) : Option (List Char × List Char) :=
  match stripLit ":59".data s with
  | some ('A' :: ':' :: r) => lazyCap r
  | some (':' :: r) => lazyCap r
  | _ => none

/-- `re.search` for the field-59 pattern. -/
def search59 (l : List Char) : Option (List Char × List Char) :=
  searchWith match59 l

/-- Matcher for `{LABEL:([^}]+)}` at the current position (used for the
block regexes `{1:...}` … `{5:...}` and the block-3 sub-tags `{108:...}` …). -/
def matchBraceGroup (label : List Char) (s : List Char) : Option (List Char) :=
  match stripLit ('{' :: (label ++ [':'])) s with
  | some rest =>
    match takeRun (fun c => !(c == '}')) rest with
    | ([], _) => none
    | (run, '}' :: _) => some run
    | (_, _) => none
  | none => none

/-- `re.search("{LABEL:([^}]+)}", text)`. -/
def searchBraceGroup (label : List Char) (l : List Char) : Option (List Char) :=
  searchWith (matchBraceGroup label) l

/-- Matcher for `:TAG:([^\s:]+)` at the current position. -/
def matchTokenTag (tag : List Char) (s : List Char) : Option (List Char) :=
  match stripLit (':' :: (tag ++ [':'])) s with
  | some rest =>
    match takeRun (fun c => !(isWS c) && !(c == ':')) rest with
    | ([], _) => none
    | (run, _) => some run
  | none => none

/-- `re.search(":TAG:([^\s:]+)", text)`. -/
def searchTokenTag (tag : List Char) (l : List Char) : Option (List Char) :=
  searchWith (matchTokenTag tag) l

/-- Matcher for `:TAG:([^:]+)` at the current position. -/
def matchColonFree (tag : List Char) (s : List Char) : Option (List Char) :=
  match stripLit (':' :: (tag ++ [':'])) s with
  | some rest =>
    match takeRun (fun c => !(c == ':')) rest with
    | ([], _) => none
    | (run, _) => some run
  | none => none

/-- `re.search(":TAG:([^:]+)", text)`. -/
def searchColonFree (tag : List Char) (l : List Char) : Option (List Char) :=
  searchWith (matchColonFree tag) l

/-- Matcher for `:32A:(\d{6})([A-Z]{3})([\d,]+)`. -/
def match32A (s : List Char) : Option (List Char × List Char × List Char) :=
  match stripLit ":32A:".data s with
  | some s1 =>
    match fixedTake (fun c => c.isDigit) 6 s1 with
    | some (d, s2) =>
      match fixedTake (fun c => c.isUpper) 3 s2 with
      | some (cur, s3) =>
        match takeRun (fun c => c.isDigit || c == ',') s3 with
        | ([], _) => none
        | (amt, _) => some (d, cur, amt)
      | none => none
    | none => none
  | none => none

/-- Matcher for `:33B:([A-Z]{3})([\d,]+)`. -/
def match33B (s : List Char) : Option (List Char × List Char) :=
  match stripLit ":33B:".data s with
  | some s1 =>
    match fixedTake (fun c => c.isUpper) 3 s1 with
    | some (cur, s2) =>
      match takeRun (fun c => c.isDigit || c == ',') s2 with
      | ([], _) => none
      | (amt, _) => some (cur, amt)
    | none => none
  | none => none

/-- `parse_amount`: replace every comma by a dot. -/
def parse_amount (amount_str : String) : String :=
  ⟨amount_str.data.map (fun c => if c = ',' then '.' else c)⟩

/-- Value of the first two characters read as a base-10 number; models
Python `int(date_str[:2])` on the digit strings supplied by the `\d{6}`
capture of field 32A. -/
def twoDigitVal : List Char → Nat
  | a :: b :: _ => (a.toNat - 48) * 10 + (b.toNat - 48)
  | _ => 0

/-- `parse_date`: convert `YYMMDD` to `YYYY-MM-DD`, with century pivot
`YY ≤ 50 → 20YY` and `YY ≥ 51 → 19YY`; other lengths pass through. -/
def parse_date (date_str : String) : String :=
  if date_str.length = 6 then
    let y0 := twoDigitVal date_str.data
    let year := if y0 ≤ 50 then 2000 + y0 else 1900 + y0
    let month := (date_str.data.drop 2).take 2
    let day := (date_str.data.drop 4).take 2
    ⟨(Nat.repr year).data ++ '-' :: (month ++ '-' :: day)⟩
  else date_str

/-- Matcher for the anchored block-1 pattern
`F(\d{2})([A-Z0-9]{12})(\d{4})(\d{6})` (`re.match`, prefix only). -/
def matchBasicHeader (l : List Char) :
    Option (List Char × List Char × List Char × List Char) :=
  match stripLit ['F'] l with
  | some s1 =>
    match fixedTake (fun c => c.isDigit) 2 s1 with
    | some (sid, s2) =>
      match fixedTake isUpperDigit 12 s2 with
      | some (lt, s3) =>
        match fixedTake (fun c => c.isDigit) 4 s3 with
        | some (sess, s4) =>
          match fixedTake (fun c => c.isDigit) 6 s4 with
          | some (seq, _) => some (sid, lt, sess, seq)
          | none => none
        | none => none
      | none => none
    | none => none
  | none => none

/-- `parse_basic_header` (block 1): fixed-width decode, empty dict on
mismatch. -/
def parse_basic_header (header : String) : List (String × JValue) :=
  match matchBasicHeader header.data with
  | some (sid, lt, sess, seq) =>
    [("Application_Id", .str "F"), ("Service_Id", .str ⟨sid⟩),
     ("LT_Address", .str ⟨lt⟩), ("Session", .str ⟨sess⟩),
     ("Sequence_No", .str ⟨seq⟩)]
  | none => []

/-- Matcher for the anchored input-layout pattern
`I(\d{3})([A-Z0-9]{12})([A-Z])`. -/
def matchInputHeader (l : List Char) :
    Option (List Char × List Char × Char) :=
  match stripLit ['I'] l with
  | some s1 =>
    match fixedTake (fun c => c.isDigit) 3 s1 with
    | some (mt, s2) =>
      match fixedTake isUpperDigit 12 s2 with
      | some (rcpt, s3) =>
        match s3 with
        | p :: _ => if p.isUpper then some (mt, rcpt, p) else none
        | [] => none
      | none => none
    | none => none
  | none => none

/-- Matcher for the anchored output-layout pattern
`O(\d{3})(\d{10})([A-Z0-9]{28})([A-Z])`. -/
def matchOutputHeader (l : List Char) :
    Option (List Char × List Char × List Char × Char) :=
  match stripLit ['O'] l with
  | some s1 =>
    match fixedTake (fun c => c.isDigit) 3 s1 with
    | some (mt, s2) =>
      match fixedTake (fun c => c.isDigit) 10 s2 with
      | some (itime, s3) =>
        match fixedTake isUpperDigit 28 s3 with
        | some (mir, s4) =>
          match s4 with
          | p :: _ => if p.isUpper then some (mt, itime, mir, p) else none
          | [] => none
        | none => none
      | none => none
    | none => none
  | none => none

/-- `parse_application_header` (block 2): "I" or "O" layout selected by the
leading letter (`header.startswith`); empty dict otherwise. -/
def parse_application_header (header : String) : List (String × JValue) :=
  match header.data with
  | 'I' :: _ =>
    (match matchInputHeader header.data with
     | some (mt, rcpt, p) =>
       [("IO_ID", .str "I"), ("MT", .str ⟨mt⟩), ("Recipient", .str ⟨rcpt⟩),
        ("Message_Priority", .str ⟨[p]⟩)]
     | none => [])
  | 'O' :: _ =>
    (match matchOutputHeader header.data with
     | some (mt, itime, mir, p) =>
       [("IO_ID", .str "O"), ("MT", .str ⟨mt⟩), ("Input_Time", .str ⟨itime⟩),
        ("MIR", .str ⟨mir⟩), ("Message_Priority", .str ⟨[p]⟩)]
     | none => [])
  | _ => []

/-- `parse_user_header` (block 3): four independent sub-tag searches. -/
def parse_user_header (header : String) : List (String × JValue) :=
  optSingle "MUR"
      ((searchBraceGroup "108".data header.data).map (fun v => .str ⟨v⟩)) ++
  optSingle "Bank_Priority_Code"
      ((searchBraceGroup "113".data header.data).map (fun v => .str ⟨v⟩)) ++
  optSingle "Service_Type_Identifier"
      ((searchBraceGroup "111".data header.data).map (fun v => .str ⟨v⟩)) ++
  optSingle "UniqueEndToEndTransactionReference_121"
      ((searchBraceGroup "121".data header.data).map (fun v => .str ⟨v⟩))

/-- Matcher for one occurrence of
`:13C:/([^/]+)/(\d{4})([+-])(\d{4})`, returning the built record and the
remainder after the match. -/
def match13C (s : List Char) : Option (JValue × List Char) :=
  match stripLit ":13C:/".data s with
  | some s1 =>
    match takeRun (fun c => !(c == '/')) s1 with
    | ([], _) => none
    | (code, s2) =>
      match s2 with
      | '/' :: s3 =>
        match fixedTake (fun c => c.isDigit) 4 s3 with
        | some (time, s4) =>
          match s4 with
          | sign :: s5 =>
            if sign == '+' || sign == '-' then
              match fixedTake (fun c => c.isDigit) 4 s5 with
              | some (off, s6) =>
                some (.obj
                  [("F13C_Code", .str ⟨code⟩),
                   ("F13C_Time", .str ⟨time.take 2 ++ ':' :: (time.drop 2 ++ ":00".data)⟩),
                   ("F13C_Sign", .str ⟨[sign]⟩),
                   ("F13C_Offset", .str ⟨off.take 2 ++ ':' :: (off.drop 2 ++ ":00".data)⟩)],
                  s6)
              | none => none
            else none
          | [] => none
        | none => none
      | _ => none
  | none => none

/-- `parse_field_13c`: all non-overlapping 13C occurrences, in order. -/
def parse_field_13c (text : String) : List JValue :=
  finditerWith match13C text.data

/-- `parse_field_50f`: first stripped line is the party identifier, the
remaining lines (joined by newlines) the name/address block. -/
def parse_field_50f (value : String) : List (String × JValue) :=
  match splitAllNL (pyStripL value.data) with
  | [] => []
  | l0 :: rest =>
    [("F50F_PartyIdentifier", .str ⟨l0⟩)] ++
    (match rest with
     | [] => []
     | _ :: _ => [("F50F_NameAddr", .str ⟨List.intercalate ['\n'] rest⟩)])

/-- Matcher for one occurrence of `:71F:([A-Z]{3})([\d,]+)`. -/
def match71F (s : List Char) : Option (JValue × List Char) :=
  match stripLit ":71F:".data s with
  | some s1 =>
    match fixedTake (fun c => c.isUpper) 3 s1 with
    | some (cur, s2) =>
      match takeRun (fun c => c.isDigit || c == ',') s2 with
      | ([], _) => none
      | (amt, rest) =>
        some (.obj [("F71F_Curr", .str ⟨cur⟩),
                    ("F71F_Amount", .str (parse_amount ⟨amt⟩))], rest)
    | none => none
  | none => none

/-! Block-4 field entries, one per decode site of `parse_text_block`,
in the source's order.  Each yields the (possibly empty) list of dict
entries the corresponding Python statements insert into `result["A"]`. -/

/-- Field 20 — Transaction Reference. -/
def f20E (t : List Char) : List (String × JValue) :=
  optSingle "F20" ((searchTokenTag "20".data t).map
    (fun v => .obj [("F20_TRN", .str (pyStrip ⟨v⟩))]))

/-- Field 13C group: one occurrence → single object, several → list. -/
def a1E (t : List Char) : List (String × JValue) :=
  optSingle "A1"
    (match parse_field_13c ⟨t⟩ with
     | [] => none
     | [ti] => some (.obj [("F13C", ti)])
     | tis => some (.obj [("F13C", .arr tis)]))

/-- Field 23B — Bank Operation Code. -/
def f23bE (t : List Char) : List (String × JValue) :=
  optSingle "F23B" ((searchTokenTag "23B".data t).map
    (fun v => .obj [("F23B_BankOpCode", .str (pyStrip ⟨v⟩))]))

/-- Field 23E — Instruction Code. -/
def f23eE (t : List Char) : List (String × JValue) :=
  optSingle "F23E" ((searchColonFree "23E".data t).map
    (fun v => .obj [("F23E_InstructionCode", .str (pyStrip ⟨v⟩))]))

/-- Field 26T — Transaction Type Code. -/
def f26tE (t : List Char) : List (String × JValue) :=
  optSingle "F26T" ((searchColonFree "26T".data t).map
    (fun v => .obj [("F26T_TransType", .str (pyStrip ⟨v⟩))]))

/-- Field 32A — Value Date, Currency, Amount. -/
def f32aE (t : List Char) : List (String × JValue) :=
  optSingle "F32A" ((searchWith match32A t).map
    (fun dca => .obj [("F32A_Date", .str (parse_date ⟨dca.1⟩)),
                      ("F32A_Curr", .str ⟨dca.2.1⟩),
                      ("F32A_Amount", .str (parse_amount ⟨dca.2.2⟩))]))

/-- Field 33B — Currency, Amount. -/
def f33bE (t : List Char) : List (String × JValue) :=
  optSingle "F33B" ((searchWith match33B t).map
    (fun ca => .obj [("F33B_Curr", .str ⟨ca.1⟩),
                     ("F33B_Amount", .str (parse_amount ⟨ca.2⟩))]))

/-- Field 36 — Exchange Rate. -/
def f36E (t : List Char) : List (String × JValue) :=
  optSingle "F36" ((searchColonFree "36".data t).map
    (fun v => .obj [("F36_ExchangeRate", .str (pyStrip ⟨v⟩))]))

/-- Field 50F — Ordering Customer (structured). -/
def f50fE (t : List Char) : List (String × JValue) :=
  optSingle "F50F" ((searchLazyTag "50F".data t).map
    (fun vr => .obj (parse_field_50f ⟨vr.1⟩)))

/-- Field 50K — Ordering Customer (unstructured); attempted only when the
literal marker `:50F:` does not occur in the body. -/
def f50kE (t : List Char) : List (String × JValue) :=
  if containsSub ":50F:".data t then []
  else
    optSingle "F50K" ((searchLazyTag "50K".data t).map
      (fun vr => .obj [("F50K_OrderingCustomer", .str (pyStrip ⟨vr.1⟩))]))

/-- Field 51A — Sending Institution. -/
def f51aE (t : List Char) : List (String × JValue) :=
  optSingle "F51A" ((searchColonFree "51A".data t).map
    (fun v => .obj [("F51A_SendingInstitution", .str (pyStrip ⟨v⟩))]))

/-- Field 52D — Ordering Institution: account-id / name-address split. -/
def f52dE (t : List Char) : List (String × JValue) :=
  optSingle "F52D" ((searchLazyTag "52D".data t).map
    (fun vr =>
      let s := pyStripL vr.1
      let lp := splitOnce '\n' s
      if lp.1.head? = some '/' then
        .obj ([("F52D_AccountId", .str ⟨lp.1⟩)] ++
          (match lp.2 with
           | some l1 => [("F52D_NameAddr", .str ⟨l1⟩)]
           | none => []))
      else .obj [("F52D_NameAddr", .str ⟨s⟩)]))

/-- Field 52A — Ordering Institution BIC. -/
def f52aE (t : List Char) : List (String × JValue) :=
  optSingle "F52A" ((searchColonFree "52A".data t).map
    (fun v => .obj [("F52A_BIC", .str (pyStrip ⟨v⟩))]))

/-- Field 53B — Sender's Correspondent. -/
def f53bE (t : List Char) : List (String × JValue) :=
  optSingle "F53B" ((searchColonFree "53B".data t).map
    (fun v => .obj [("F53B_Account", .str (pyStrip ⟨v⟩))]))

/-- Field 54A — Receiver's Correspondent: account-id / BIC split, the
else-branch keeping only the first line. -/
def f54aE (t : List Char) : List (String × JValue) :=
  optSingle "F54A" ((searchLazyTag "54A".data t).map
    (fun vr =>
      let s := pyStripL vr.1
      let lp := splitOnce '\n' s
      if lp.1.head? = some '/' then
        .obj ([("F54A_AccountId", .str ⟨lp.1⟩)] ++
          (match lp.2 with
           | some l1 => [("F54A_BIC", .str ⟨l1⟩)]
           | none => []))
      else .obj [("F54A_BIC", .str ⟨lp.1⟩)]))

/-- Field 56 — Intermediary: suffixes tried in the order A, C, D, the
first present one wins (the `for … break` loop of the source). -/
def field56 (t : List Char) : List (String × JValue) :=
  match searchLazyTag "56A".data t with
  | some vr => [("F56A", .obj [("F56A_Intermediary", .str (pyStrip ⟨vr.1⟩))])]
  | none =>
    match searchLazyTag "56C".data t with
    | some vr => [("F56C", .obj [("F56C_Intermediary", .str (pyStrip ⟨vr.1⟩))])]
    | none =>
      match searchLazyTag "56D".data t with
      | some vr => [("F56D", .obj [("F56D_Intermediary", .str (pyStrip ⟨vr.1⟩))])]
      | none => []

/-- Field 57 — Account With Institution: suffixes tried in the order
A, B, C, D, the first present one wins. -/
def field57 (t : List Char) : List (String × JValue) :=
  match searchLazyTag "57A".data t with
  | some vr => [("F57A", .obj [("F57A_AccountWithInstitution", .str (pyStrip ⟨vr.1⟩))])]
  | none =>
    match searchLazyTag "57B".data t with
    | some vr => [("F57B", .obj [("F57B_AccountWithInstitution", .str (pyStrip ⟨vr.1⟩))])]
    | none =>
      match searchLazyTag "57C".data t with
      | some vr => [("F57C", .obj [("F57C_AccountWithInstitution", .str (pyStrip ⟨vr.1⟩))])]
      | none =>
        match searchLazyTag "57D".data t with
        | some vr => [("F57D", .obj [("F57D_AccountWithInstitution", .str (pyStrip ⟨vr.1⟩))])]
        | none => []

/-- Field 59 — Beneficiary (`:59A?:`): account-id / name-address split,
the else-branch keeping the whole stripped value. -/
def f59E (t : List Char) : List (String × JValue) :=
  optSingle "F59" ((search59 t).map
    (fun vr =>
      let s := pyStripL vr.1
      let lp := splitOnce '\n' s
      if lp.1.head? = some '/' then
        .obj ([("F59_ACC_ID_Party", .str ⟨lp.1⟩)] ++
          (match lp.2 with
           | some l1 => [("F59_Name_addr_Party", .str ⟨l1⟩)]
           | none => []))
      else .obj [("F59_Name_addr_Party", .str ⟨s⟩)]))

/-- Field 70 — Remittance Information. -/
def f70E (t : List Char) : List (String × JValue) :=
  optSingle "F70" ((searchLazyTag "70".data t).map
    (fun vr => .obj [("F70_PaymentDetails", .str (pyStrip ⟨vr.1⟩))]))

/-- Field 71A — Details of Charges. -/
def f71aE (t : List Char) : List (String × JValue) :=
  optSingle "F71A" ((searchColonFree "71A".data t).map
    (fun v => .obj [("F71A_ChargesCode", .str (pyStrip ⟨v⟩))]))

/-- Field 71F group: one occurrence → single object, several → list. -/
def a3E (t : List Char) : List (String × JValue) :=
  optSingle "A3"
    (match finditerWith match71F t with
     | [] => none
     | [c] => some (.obj [("F71F", c)])
     | cs => some (.obj [("F71F", .arr cs)]))

/-- Field 71G — Receiver's Charges. -/
def f71gE (t : List Char) : List (String × JValue) :=
  optSingle "F71G" ((searchColonFree "71G".data t).map
    (fun v => .obj [("F71G_ReceiverCharges", .str (pyStrip ⟨v⟩))]))

/-- Field 72 — Sender to Receiver Information. -/
def f72E (t : List Char) : List (String × JValue) :=
  optSingle "F72" ((searchLazyTag "72".data t).map
    (fun vr => .obj [("F72_General", .str (pyStrip ⟨vr.1⟩))]))

/-- Field 77B — Regulatory Reporting. -/
def f77bE (t : List Char) : List (String × JValue) :=
  optSingle "F77B" ((searchLazyTag "77B".data t).map
    (fun vr => .obj [("F77B_Narrative", .str (pyStrip ⟨vr.1⟩))]))

/-- All entries of `result["A"]`, in the source's insertion order. -/
def aEntries (t : List Char) : List (String × JValue) :=
  f20E t ++ a1E t ++ f23bE t ++ f23eE t ++ f26tE t ++ f32aE t ++ f33bE t ++
  f36E t ++ f50fE t ++ f50kE t ++ f51aE t ++ f52dE t ++ f52aE t ++ f53bE t ++
  f54aE t ++ field56 t ++ field57 t ++ f59E t ++ f70E t ++ f71aE t ++ a3E t ++
  f71gE t ++ f72E t ++ f77bE t

/-- `parse_text_block` (block 4): `{"A": {…}}`. -/
def parse_text_block (text : String) : List (String × JValue) :=
  [("A", .obj (aEntries text.data))]

/-- Trailing part `\s*-}` of the block-4 regex: greedy whitespace run,
then the literal terminator (whitespace never equals `-`, so the greedy
run is forced). -/
def b4Tail (after : List Char) : Bool :=
  match (takeRun isWS after).2 with
  | '-' :: '}' :: _ => true
  | _ => false

/-- The lazy group of `{4:\s*(.+?)\s*-}`: shortest non-empty prefix whose
remainder satisfies `\s*-}`. -/
def b4Lazy : List Char → Option (List Char)
  | [] => none
  | c :: rest =>
    if b4Tail rest then some [c]
    else
      match b4Lazy rest with
      | some v => some (c :: v)
      | none => none

/-- Backtracking of the leading `\s*` of the block-4 regex: longest
whitespace run first, shrinking on failure. -/
def b4TryW (rest : List Char) : Nat → Option (List Char)
  | 0 => b4Lazy rest
  | w + 1 =>
    match b4Lazy (rest.drop (w + 1)) with
    | some v => some v
    | none => b4TryW rest w

/-- Matcher for `{4:\s*(.+?)\s*-}` under `re.DOTALL` at the current
position. -/
def matchB4 (s : List Char) : Option (List Char) :=
  match stripLit "\x7b4:".data s with
  | some rest => b4TryW rest (takeRun isWS rest).1.length
  | none => none

/-- `re.search` for the block-4 pattern. -/
def searchBlock4 (l : List Char) : Option (List Char) :=
  searchWith matchB4 l

/-- `mt103_to_json`: strip the raw message, decode blocks 1–5 in order,
merging each decoded record into the `MT103` dict; missing blocks are
skipped. -/
def mt103_to_json (mt103_message : String) : JValue :=
  let m := (pyStrip mt103_message).data
  let inner : List (String × JValue) := []
  let inner :=
    match searchBraceGroup "1".data m with
    | some b => pyUpdate inner (parse_basic_header ⟨b⟩)
    | none => inner
  let inner :=
    match searchBraceGroup "2".data m with
    | some b => pyUpdate inner (parse_application_header ⟨b⟩)
    | none => inner
  let inner :=
    match searchBraceGroup "3".data m with
    | some b => pyUpdate inner (parse_user_header ⟨b⟩)
    | none => inner
  let inner :=
    match searchBlock4 m with
    | some b => pyUpdate inner (parse_text_block ⟨b⟩)
    | none => inner
  let inner :=
    match searchBraceGroup "5".data m with
    | some b => setKey inner "Trailer" (.str ⟨b⟩)
    | none => inner
  .obj [("MT103", .obj inner)]

/-! Per-block contributions of `mt103_to_json`, for stating how the five
decode steps compose (each is the dict the corresponding `if match:`
branch merges into `result["MT103"]`, or `[]` when the block is absent). -/

/-- Block-1 contribution to the document. -/
def headerPart (m : List Char) : List (String × JValue) :=
  match searchBraceGroup "1".data m with
  | some b => parse_basic_header ⟨b⟩
  | none => []

/-- Block-2 contribution to the document. -/
def appPart (m : List Char) : List (String × JValue) :=
  match searchBraceGroup "2".data m with
  | some b => parse_application_header ⟨b⟩
  | none => []

/-- Block-3 contribution to the document. -/
def userPart (m : List Char) : List (String × JValue) :=
  match searchBraceGroup "3".data m with
  | some b => parse_user_header ⟨b⟩
  | none => []

/-- Block-4 contribution to the document. -/
def textPart (m : List Char) : List (String × JValue) :=
  match searchBlock4 m with
  | some b => parse_text_block ⟨b⟩
  | none => []

/-- Block-5 contribution to the document. -/
def trailerPart (m : List Char) : List (String × JValue) :=
  match searchBraceGroup "5".data m with
  | some b => [("Trailer", JValue.str ⟨b⟩)]
  | none => []

/-- The end-to-end scenario input of the specification (blocks 3 and 5
absent). -/
def msgScenario : String :=
  "\x7b1:F01TESTBANK0XXX0001000001\x7d\x7b2:I103TESTBANK1XXXN\x7d\x7b4:\n:20:TEST-001\n:23B:CRED\n:32A:240101USD10000,00\n:59:/123456\nBEN NAME\n:71A:SHA\n-\x7d"

/-- A message whose block 3 holds nested sub-tag groups (the sample of the
repository's integration test). -/
def msgNested3 : String :=
  "\x7b1:F01TESTBANK0XXX0001000001\x7d\x7b2:I103TESTBANK1XXXN\x7d\x7b3:\x7b108:TEST-REF-001\x7d\x7b121:aaaaaaaa-bbbb-4ccc-8ddd-eeeeeeeeeeee\x7d\x7d\x7b4:\n:20:TEST-001\n:23B:CRED\n:32A:240101USD10000,00\n:50K:/987654\nTEST CUSTOMER\nNEW YORK\n:59:/123456\nBENEFICIARY NAME\nLONDON\n:71A:SHA\n-\x7d"

/-! General lemmas about the dict and search primitives. -/

/-- First-some choice, used to state how `lookupA` distributes over `++`. -/
def orElseO (a b : Option JValue) : Option JValue :=
  match a with
  | some v => some v
  | none => b

@[simp] theorem orElseO_some (v : JValue) (b : Option JValue) :
    orElseO (some v) b = some v := rfl

@[simp] theorem orElseO_none_left (b : Option JValue) : orElseO none b = b := rfl

@[simp] theorem orElseO_none_right (a : Option JValue) : orElseO a none = a := by
  cases a <;> rfl

theorem lookupA_append (l1 l2 : List (String × JValue)) (k : String) :
    lookupA (l1 ++ l2) k = orElseO (lookupA l1 k) (lookupA l2 k) := by
  induction l1 with
  | nil => simp [lookupA]
  | cons p rest ih =>
    obtain ⟨k', v'⟩ := p
    by_cases h : k' = k <;> simp [lookupA, h, ih]

theorem lookupA_optSingle (k k' : String) (o : Option JValue) :
    lookupA (optSingle k o) k' = if k = k' then o else none := by
  cases o <;> by_cases h : k = k' <;> simp [optSingle, lookupA, h]

/-- Every key of the dict belongs to the given list. -/
def KeysIn (l : List (String × JValue)) (ks : List String) : Prop :=
  ∀ p ∈ l, p.1 ∈ ks

/-- The dict's keys are pairwise distinct. -/
def NodupKeys (l : List (String × JValue)) : Prop :=
  l.Pairwise (fun a b => a.1 ≠ b.1)

theorem keysIn_nil (ks : List String) : KeysIn [] ks := by
  intro p hp; cases hp

theorem keysIn_append {l1 l2 : List (String × JValue)} {ks : List String}
    (h1 : KeysIn l1 ks) (h2 : KeysIn l2 ks) : KeysIn (l1 ++ l2) ks := by
  intro p hp
  rcases List.mem_append.mp hp with h | h
  · exact h1 p h
  · exact h2 p h

theorem keysIn_mono {l : List (String × JValue)} {ks ks' : List String}
    (h : KeysIn l ks) (hsub : ∀ k ∈ ks, k ∈ ks') : KeysIn l ks' := by
  intro p hp; exact hsub p.1 (h p hp)

theorem keysIn_optSingle (k : String) (o : Option JValue) (ks : List String)
    (hk : k ∈ ks) : KeysIn (optSingle k o) ks := by
  cases o with
  | none => exact keysIn_nil ks
  | some v => intro p hp; simp [optSingle] at hp; simp [hp, hk]

theorem lookupA_none_of_keysIn {l : List (String × JValue)} {ks : List String}
    {k : String} (h : KeysIn l ks) (hk : k ∉ ks) : lookupA l k = none := by
  induction l with
  | nil => rfl
  | cons p rest ih =>
    obtain ⟨k', v'⟩ := p
    have hk' : k' ∈ ks := h (k', v') (List.mem_cons_self _ _)
    have hne : k' ≠ k := fun he => hk (he ▸ hk')
    simp only [lookupA, if_neg hne]
    exact ih (fun q hq => h q (List.mem_cons_of_mem _ hq))

theorem setKey_of_absent (l : List (String × JValue)) (k : String) (v : JValue)
    (h : lookupA l k = none) : setKey l k v = l ++ [(k, v)] := by
  induction l with
  | nil => rfl
  | cons p rest ih =>
    obtain ⟨k', v'⟩ := p
    by_cases hk : k' = k
    · simp [lookupA, hk] at h
    · simp only [lookupA, if_neg hk] at h
      simp [setKey, hk, ih h]

theorem pyUpdate_of_disjoint (e : List (String × JValue)) :
    ∀ d : List (String × JValue), (∀ p ∈ e, lookupA d p.1 = none) → NodupKeys e →
      pyUpdate d e = d ++ e := by
  induction e with
  | nil => intro d _ _; simp [pyUpdate]
  | cons p rest ih =>
    intro d hd hn
    obtain ⟨k, v⟩ := p
    have h1 : lookupA d k = none := hd (k, v) (List.mem_cons_self _ _)
    have hstep : pyUpdate d ((k, v) :: rest) = pyUpdate (setKey d k v) rest := rfl
    rw [hstep, setKey_of_absent d k v h1]
    have hn' : NodupKeys rest := (List.pairwise_cons.mp hn).2
    have hk : ∀ q ∈ rest, (k, v).1 ≠ q.1 := (List.pairwise_cons.mp hn).1
    have hd' : ∀ q ∈ rest, lookupA (d ++ [(k, v)]) q.1 = none := by
      intro q hq
      rw [lookupA_append]
      have h2 : lookupA d q.1 = none := hd q (List.mem_cons_of_mem _ hq)
      have h3 : lookupA [(k, v)] q.1 = none := by
        simp [lookupA, (hk q hq)]
      simp [h2, h3]
    rw [ih (d ++ [(k, v)]) hd' hn']
    simp

theorem pyUpdate_keysIn_disjoint {d e : List (String × JValue)}
    {ks ks' : List String} (hd : KeysIn d ks) (he : KeysIn e ks')
    (hdisj : ∀ k ∈ ks', k ∉ ks) (hn : NodupKeys e) :
    pyUpdate d e = d ++ e := by
  refine pyUpdate_of_disjoint e d (fun p hp => ?_) hn
  exact lookupA_none_of_keysIn hd (hdisj p.1 (he p hp))

theorem stripLit_eq {p l r : List Char} (h : stripLit p l = some r) :
    l = p ++ r := by
  induction p generalizing l with
  | nil =>
    simp only [stripLit, Option.some.injEq] at h
    simpa using h
  | cons c cs ih =>
    cases l with
    | nil => simp [stripLit] at h
    | cons c' l' =>
      by_cases hc : c' = c
      · subst hc
        simp only [stripLit, if_pos rfl] at h
        simpa using ih h
      · simp [stripLit, hc] at h

theorem lazyCap_spec {l v rest : List Char} (h : lazyCap l = some (v, rest)) :
    l = v ++ rest ∧ v ≠ [] ∧ stopCond rest = true ∧
      (∀ v1 v2, v = v1 ++ v2 → v1 ≠ [] → v2 ≠ [] → stopCond (v2 ++ rest) = false) := by
  induction l generalizing v rest with
  | nil => simp [lazyCap] at h
  | cons c tl ih =>
    by_cases hs : stopCond tl = true
    · simp only [lazyCap, if_pos hs, Option.some.injEq, Prod.mk.injEq] at h
      obtain ⟨hv, hr⟩ := h
      subst hv; subst hr
      refine ⟨rfl, by simp, hs, ?_⟩
      intro v1 v2 hsplit h1 h2
      exfalso
      rcases v1 with _ | ⟨a, as⟩
      · exact h1 rfl
      · rcases v2 with _ | ⟨b, bs⟩
        · exact h2 rfl
        · have hlen := congrArg List.length hsplit
          simp at hlen
    · simp only [lazyCap, if_neg hs] at h
      rcases hrec : lazyCap tl with _ | ⟨v', after⟩
      · rw [hrec] at h; simp at h
      · rw [hrec] at h
        simp only [Option.some.injEq, Prod.mk.injEq] at h
        obtain ⟨hv, hr⟩ := h
        subst hr
        obtain ⟨heq, hne, hst, hmin⟩ := ih hrec
        refine ⟨by rw [← hv, heq]; rfl, by rw [← hv]; simp, hst, ?_⟩
        intro v1 v2 hsplit h1 h2
        rcases v1 with _ | ⟨a, as⟩
        · exact absurd rfl h1
        · rw [← hv] at hsplit
          have hcons : c :: v' = a :: (as ++ v2) := by simpa using hsplit
          have htail : v' = as ++ v2 := by injection hcons
          rcases as with _ | ⟨a', as'⟩
          · have hv2 : v2 = v' := by simpa using htail.symm
            have hF : stopCond tl = false := by
              cases hsc : stopCond tl with
              | false => rfl
              | true => exact absurd hsc hs
            rw [hv2, ← heq]
            exact hF
          · exact hmin (a' :: as') v2 htail (by simp) h2

theorem field56_lookup_ne (t : List Char) (k : String)
    (h1 : k ≠ "F56A") (h2 : k ≠ "F56C") (h3 : k ≠ "F56D") :
    lookupA (field56 t) k = none := by
  unfold field56
  rcases searchLazyTag "56A".data t with _ | vr
  · rcases searchLazyTag "56C".data t with _ | vr
    · rcases searchLazyTag "56D".data t with _ | vr
      · rfl
      · simp [lookupA, Ne.symm h3]
    · simp [lookupA, Ne.symm h2]
  · simp [lookupA, Ne.symm h1]

theorem field57_lookup_ne (t : List Char) (k : String)
    (h1 : k ≠ "F57A") (h2 : k ≠ "F57B") (h3 : k ≠ "F57C") (h4 : k ≠ "F57D") :
    lookupA (field57 t) k = none := by
  unfold field57
  rcases searchLazyTag "57A".data t with _ | vr
  · rcases searchLazyTag "57B".data t with _ | vr
    · rcases searchLazyTag "57C".data t with _ | vr
      · rcases searchLazyTag "57D".data t with _ | vr
        · rfl
        · simp [lookupA, Ne.symm h4]
      · simp [lookupA, Ne.symm h3]
    · simp [lookupA, Ne.symm h2]
  · simp [lookupA, Ne.symm h1]

theorem f50kE_lookup_ne (t : List Char) (k : String) (h : k ≠ "F50K") :
    lookupA (f50kE t) k = none := by
  unfold f50kE
  split
  · rfl
  · simp [lookupA_optSingle, Ne.symm h]

theorem aEntries_at_A1 (t : List Char) :
    lookupA (aEntries t) "A1" = lookupA (a1E t) "A1" := by
  simp [aEntries, lookupA_append, f20E, f23bE, f23eE, f26tE, f32aE, f33bE, f36E,
        f50fE, f51aE, f52dE, f52aE, f53bE, f54aE, f59E, f70E, f71aE, a3E,
        f71gE, f72E, f77bE, lookupA_optSingle,
        field56_lookup_ne t "A1" (by decide) (by decide) (by decide),
        field57_lookup_ne t "A1" (by decide) (by decide) (by decide) (by decide),
        f50kE_lookup_ne t "A1" (by decide)]

theorem aEntries_at_A3 (t : List Char) :
    lookupA (aEntries t) "A3" = lookupA (a3E t) "A3" := by
  simp [aEntries, lookupA_append, f20E, a1E, f23bE, f23eE, f26tE, f32aE, f33bE,
        f36E, f50fE, f51aE, f52dE, f52aE, f53bE, f54aE, f59E, f70E, f71aE,
        f71gE, f72E, f77bE, lookupA_optSingle,
        field56_lookup_ne t "A3" (by decide) (by decide) (by decide),
        field57_lookup_ne t "A3" (by decide) (by decide) (by decide) (by decide),
        f50kE_lookup_ne t "A3" (by decide)]

theorem aEntries_at_F50K (t : List Char) :
    lookupA (aEntries t) "F50K" = lookupA (f50kE t) "F50K" := by
  simp [aEntries, lookupA_append, f20E, a1E, f23bE, f23eE, f26tE, f32aE, f33bE,
        f36E, f50fE, f51aE, f52dE, f52aE, f53bE, f54aE, f59E, f70E, f71aE, a3E,
        f71gE, f72E, f77bE, lookupA_optSingle,
        field56_lookup_ne t "F50K" (by decide) (by decide) (by decide),
        field57_lookup_ne t "F50K" (by decide) (by decide) (by decide) (by decide)]

theorem aEntries_at_F20 (t : List Char) :
    lookupA (aEntries t) "F20" = lookupA (f20E t) "F20" := by
  simp [aEntries, lookupA_append, a1E, f23bE, f23eE, f26tE, f32aE, f33bE,
        f36E, f50fE, f51aE, f52dE, f52aE, f53bE, f54aE, f59E, f70E, f71aE, a3E,
        f71gE, f72E, f77bE, lookupA_optSingle,
        field56_lookup_ne t "F20" (by decide) (by decide) (by decide),
        field57_lookup_ne t "F20" (by decide) (by decide) (by decide) (by decide),
        f50kE_lookup_ne t "F20" (by decide)]

theorem aEntries_at_56 (t : List Char) (k : String)
    (hk : k = "F56A" ∨ k = "F56C" ∨ k = "F56D") :
    lookupA (aEntries t) k = lookupA (field56 t) k := by
  have h57 : lookupA (field57 t) k = none := by
    rcases hk with h | h | h <;> subst h <;>
      exact field57_lookup_ne t _ (by decide) (by decide) (by decide) (by decide)
  have h50k : lookupA (f50kE t) k = none := by
    rcases hk with h | h | h <;> subst h <;> exact f50kE_lookup_ne t _ (by decide)
  rcases hk with h | h | h <;> subst h <;>
    simp [aEntries, lookupA_append, f20E, a1E, f23bE, f23eE, f26tE, f32aE, f33bE,
          f36E, f50fE, f51aE, f52dE, f52aE, f53bE, f54aE, f59E, f70E, f71aE, a3E,
          f71gE, f72E, f77bE, lookupA_optSingle, h57, h50k]

theorem aEntries_at_57 (t : List Char) (k : String)
    (hk : k = "F57A" ∨ k = "F57B" ∨ k = "F57C" ∨ k = "F57D") :
    lookupA (aEntries t) k = lookupA (field57 t) k := by
  have h56 : lookupA (field56 t) k = none := by
    rcases hk with h | h | h | h <;> subst h <;>
      exact field56_lookup_ne t _ (by decide) (by decide) (by decide)
  have h50k : lookupA (f50kE t) k = none := by
    rcases hk with h | h | h | h <;> subst h <;> exact f50kE_lookup_ne t _ (by decide)
  rcases hk with h | h | h | h <;> subst h <;>
    simp [aEntries, lookupA_append, f20E, a1E, f23bE, f23eE, f26tE, f32aE, f33bE,
          f36E, f50fE, f51aE, f52dE, f52aE, f53bE, f54aE, f59E, f70E, f71aE, a3E,
          f71gE, f72E, f77bE, lookupA_optSingle, h56, h50k]

theorem searchWith_ex {α : Type} (m : List Char → Option α)
    (P : List Char → α → Prop) (hm : ∀ s a, m s = some a → P s a) :
    ∀ l a, searchWith m l = some a → ∃ pre suf, l = pre ++ suf ∧ P suf a := by
  intro l
  induction l with
  | nil =>
    intro a h
    exact ⟨[], [], rfl, hm [] a h⟩
  | cons c tl ih =>
    intro a h
    simp only [searchWith] at h
    cases hm0 : m (c :: tl) with
    | some b =>
      rw [hm0] at h
      simp only [Option.some.injEq] at h
      exact ⟨[], c :: tl, rfl, h ▸ hm _ b hm0⟩
    | none =>
      rw [hm0] at h
      obtain ⟨pre, suf, heq, hp⟩ := ih a h
      exact ⟨c :: pre, suf, by simp [heq], hp⟩

/-! Key sets of the per-block contributions. -/

/-- Keys block 1 may produce. -/
def basicKeys : List String :=
  ["Application_Id", "Service_Id", "LT_Address", "Session", "Sequence_No"]

/-- Keys block 2 may produce. -/
def appKeys : List String :=
  ["IO_ID", "MT", "Recipient", "Message_Priority", "Input_Time", "MIR"]

/-- Keys block 3 may produce. -/
def userKeys : List String :=
  ["MUR", "Bank_Priority_Code", "Service_Type_Identifier",
   "UniqueEndToEndTransactionReference_121"]

theorem keysIn_basic (h : String) : KeysIn (parse_basic_header h) basicKeys := by
  unfold parse_basic_header
  rcases matchBasicHeader h.data with _ | ⟨a, b, c, d⟩
  · exact keysIn_nil _
  · intro p hp
    simp only [List.mem_cons, List.not_mem_nil, or_false] at hp
    rcases hp with h' | h' | h' | h' | h' <;> subst h' <;> simp [basicKeys]

theorem nodup_basic (h : String) : NodupKeys (parse_basic_header h) := by
  unfold parse_basic_header
  rcases matchBasicHeader h.data with _ | ⟨a, b, c, d⟩
  · exact List.Pairwise.nil
  · simp [NodupKeys, List.pairwise_cons]

theorem keysIn_app (h : String) : KeysIn (parse_application_header h) appKeys := by
  unfold parse_application_header
  split
  · split
    · intro q hq
      simp only [List.mem_cons, List.not_mem_nil, or_false] at hq
      rcases hq with h' | h' | h' | h' <;> subst h' <;> simp [appKeys]
    · exact keysIn_nil _
  · split
    · intro q hq
      simp only [List.mem_cons, List.not_mem_nil, or_false] at hq
      rcases hq with h' | h' | h' | h' | h' <;> subst h' <;> simp [appKeys]
    · exact keysIn_nil _
  · exact keysIn_nil _

theorem nodup_app (h : String) : NodupKeys (parse_application_header h) := by
  unfold parse_application_header
  split
  · split
    · simp [NodupKeys, List.pairwise_cons]
    · exact List.Pairwise.nil
  · split
    · simp [NodupKeys, List.pairwise_cons]
    · exact List.Pairwise.nil
  · exact List.Pairwise.nil

theorem keysIn_user (h : String) : KeysIn (parse_user_header h) userKeys := by
  unfold parse_user_header
  refine keysIn_append (keysIn_append (keysIn_append ?_ ?_) ?_) ?_ <;>
    exact keysIn_optSingle _ _ _ (by simp [userKeys])

theorem disj_of_keysIn {l1 l2 : List (String × JValue)} {ks1 ks2 : List String}
    (h1 : KeysIn l1 ks1) (h2 : KeysIn l2 ks2)
    (hd : ∀ a ∈ ks1, ∀ b ∈ ks2, a ≠ b) :
    ∀ p ∈ l1, ∀ q ∈ l2, p.1 ≠ q.1 := by
  intro p hp q hq
  exact hd p.1 (h1 p hp) q.1 (h2 q hq)

theorem nodupKeys_append {l1 l2 : List (String × JValue)}
    (h1 : NodupKeys l1) (h2 : NodupKeys l2)
    (hd : ∀ p ∈ l1, ∀ q ∈ l2, p.1 ≠ q.1) : NodupKeys (l1 ++ l2) :=
  List.pairwise_append.mpr ⟨h1, h2, hd⟩

theorem nodup_optSingle (k : String) (o : Option JValue) :
    NodupKeys (optSingle k o) := by
  cases o <;> simp [NodupKeys, optSingle]

theorem nodup_user (h : String) : NodupKeys (parse_user_header h) := by
  unfold parse_user_header
  refine nodupKeys_append (nodupKeys_append (nodupKeys_append ?_ ?_ ?_) ?_ ?_) ?_ ?_
  · exact nodup_optSingle _ _
  · exact nodup_optSingle _ _
  · exact disj_of_keysIn (keysIn_optSingle _ _ ["MUR"] (by simp))
      (keysIn_optSingle _ _ ["Bank_Priority_Code"] (by simp)) (by simp)
  · exact nodup_optSingle _ _
  · exact disj_of_keysIn
      (keysIn_append (keysIn_optSingle _ _ ["MUR", "Bank_Priority_Code"] (by simp))
        (keysIn_optSingle _ _ ["MUR", "Bank_Priority_Code"] (by simp)))
      (keysIn_optSingle _ _ ["Service_Type_Identifier"] (by simp)) (by simp)
  · exact nodup_optSingle _ _
  · exact disj_of_keysIn
      (keysIn_append
        (keysIn_append
          (keysIn_optSingle _ _ ["MUR", "Bank_Priority_Code", "Service_Type_Identifier"] (by simp))
          (keysIn_optSingle _ _ ["MUR", "Bank_Priority_Code", "Service_Type_Identifier"] (by simp)))
        (keysIn_optSingle _ _ ["MUR", "Bank_Priority_Code", "Service_Type_Identifier"] (by simp)))
      (keysIn_optSingle _ _ ["UniqueEndToEndTransactionReference_121"] (by simp)) (by simp)

theorem keysIn_text (b : String) : KeysIn (parse_text_block b) ["A"] := by
  intro p hp
  simp only [parse_text_block, List.mem_singleton] at hp
  simp [hp]

theorem nodup_text (b : String) : NodupKeys (parse_text_block b) := by
  simp [NodupKeys, parse_text_block]

theorem keysIn_headerPart (m : List Char) : KeysIn (headerPart m) basicKeys := by
  unfold headerPart
  split
  · exact keysIn_basic _
  · exact keysIn_nil _

theorem keysIn_appPart (m : List Char) : KeysIn (appPart m) appKeys := by
  unfold appPart
  split
  · exact keysIn_app _
  · exact keysIn_nil _

theorem keysIn_userPart (m : List Char) : KeysIn (userPart m) userKeys := by
  unfold userPart
  split
  · exact keysIn_user _
  · exact keysIn_nil _

theorem keysIn_textPart (m : List Char) : KeysIn (textPart m) ["A"] := by
  unfold textPart
  split
  · exact keysIn_text _
  · exact keysIn_nil _

theorem nodup_headerPart (m : List Char) : NodupKeys (headerPart m) := by
  unfold headerPart
  split
  · exact nodup_basic _
  · exact List.Pairwise.nil

theorem nodup_appPart (m : List Char) : NodupKeys (appPart m) := by
  unfold appPart
  split
  · exact nodup_app _
  · exact List.Pairwise.nil

theorem nodup_userPart (m : List Char) : NodupKeys (userPart m) := by
  unfold userPart
  split
  · exact nodup_user _
  · exact List.Pairwise.nil

theorem nodup_textPart (m : List Char) : NodupKeys (textPart m) := by
  unfold textPart
  split
  · exact nodup_text _
  · exact List.Pairwise.nil

theorem keysIn_trailerPart (m : List Char) : KeysIn (trailerPart m) ["Trailer"] := by
  unfold trailerPart
  split
  · intro p hp
    simp only [List.mem_singleton] at hp
    simp [hp]
  · exact keysIn_nil _

theorem nodup_trailerPart (m : List Char) : NodupKeys (trailerPart m) := by
  unfold trailerPart
  split
  · simp [NodupKeys]
  · exact List.Pairwise.nil

theorem keysIn_append2 {l1 l2 : List (String × JValue)} {ks1 ks2 : List String}
    (h1 : KeysIn l1 ks1) (h2 : KeysIn l2 ks2) : KeysIn (l1 ++ l2) (ks1 ++ ks2) :=
  keysIn_append (keysIn_mono h1 (fun _ hk => List.mem_append_left _ hk))
    (keysIn_mono h2 (fun _ hk => List.mem_append_right _ hk))

theorem pyUpdate_nil_left {e : List (String × JValue)} (hn : NodupKeys e) :
    pyUpdate [] e = e := by
  have := pyUpdate_of_disjoint e [] (fun p _ => rfl) hn
  simpa using this

theorem match_pyUpdate (o : Option (List Char)) (d : List (String × JValue))
    (f : List Char → List (String × JValue)) :
    (match o with
     | some b => pyUpdate d (f b)
     | none => d) =
      pyUpdate d
        (match o with
         | some b => f b
         | none => []) := by
  cases o <;> rfl

theorem match_setKey (o : Option (List Char)) (d : List (String × JValue)) :
    (match o with
     | some b => setKey d "Trailer" (JValue.str ⟨b⟩)
     | none => d) =
      pyUpdate d
        (match o with
         | some b => [("Trailer", JValue.str ⟨b⟩)]
         | none => []) := by
  cases o <;> rfl

theorem mt103_decomp (msg : String) :
    mt103_to_json msg = .obj [("MT103", .obj
      (headerPart (pyStrip msg).data ++ appPart (pyStrip msg).data ++
       userPart (pyStrip msg).data ++ textPart (pyStrip msg).data ++
       trailerPart (pyStrip msg).data))] := by
  simp only [mt103_to_json]
  generalize (pyStrip msg).data = m
  rw [match_pyUpdate, match_pyUpdate, match_pyUpdate, match_pyUpdate, match_setKey]
  rw [show (match searchBraceGroup "1".data m with
            | some b => parse_basic_header ⟨b⟩
            | none => []) = headerPart m from rfl]
  rw [show (match searchBraceGroup "2".data m with
            | some b => parse_application_header ⟨b⟩
            | none => []) = appPart m from rfl]
  rw [show (match searchBraceGroup "3".data m with
            | some b => parse_user_header ⟨b⟩
            | none => []) = userPart m from rfl]
  rw [show (match searchBlock4 m with
            | some b => parse_text_block ⟨b⟩
            | none => []) = textPart m from rfl]
  rw [show (match searchBraceGroup "5".data m with
            | some b => [("Trailer", JValue.str ⟨b⟩)]
            | none => []) = trailerPart m from rfl]
  rw [pyUpdate_nil_left (nodup_headerPart m)]
  rw [pyUpdate_keysIn_disjoint (keysIn_headerPart m) (keysIn_appPart m)
      (by decide) (nodup_appPart m)]
  rw [pyUpdate_keysIn_disjoint (keysIn_append2 (keysIn_headerPart m) (keysIn_appPart m))
      (keysIn_userPart m) (by decide) (nodup_userPart m)]
  rw [pyUpdate_keysIn_disjoint
      (keysIn_append2 (keysIn_append2 (keysIn_headerPart m) (keysIn_appPart m))
        (keysIn_userPart m))
      (keysIn_textPart m) (by decide) (nodup_textPart m)]
  rw [pyUpdate_keysIn_disjoint
      (keysIn_append2
        (keysIn_append2 (keysIn_append2 (keysIn_headerPart m) (keysIn_appPart m))
          (keysIn_userPart m))
        (keysIn_textPart m))
      (keysIn_trailerPart m) (by decide) (nodup_trailerPart m)]

theorem aEntries_at_F32A (t : List Char) :
    lookupA (aEntries t) "F32A" = lookupA (f32aE t) "F32A" := by
  simp [aEntries, lookupA_append, f20E, a1E, f23bE, f23eE, f26tE, f33bE,
        f36E, f50fE, f51aE, f52dE, f52aE, f53bE, f54aE, f59E, f70E, f71aE, a3E,
        f71gE, f72E, f77bE, lookupA_optSingle,
        field56_lookup_ne t "F32A" (by decide) (by decide) (by decide),
        field57_lookup_ne t "F32A" (by decide) (by decide) (by decide) (by decide),
        f50kE_lookup_ne t "F32A" (by decide)]

theorem aEntries_at_F33B (t : List Char) :
    lookupA (aEntries t) "F33B" = lookupA (f33bE t) "F33B" := by
  simp [aEntries, lookupA_append, f20E, a1E, f23bE, f23eE, f26tE, f32aE,
        f36E, f50fE, f51aE, f52dE, f52aE, f53bE, f54aE, f59E, f70E, f71aE, a3E,
        f71gE, f72E, f77bE, lookupA_optSingle,
        field56_lookup_ne t "F33B" (by decide) (by decide) (by decide),
        field57_lookup_ne t "F33B" (by decide) (by decide) (by decide) (by decide),
        f50kE_lookup_ne t "F33B" (by decide)]

/-! The claims. -/

/-- Claim C1: for the end-to-end scenario input (blocks 3 and 5 absent),
`mt103_to_json` yields a document with transaction reference `TEST-001`,
value date `2024-01-01`, currency `USD`, amount `10000.00` and charge code
`SHA`, with blocks 1, 2 and 4 all decoded. -/
theorem claim_C1 :
    getPath (mt103_to_json msgScenario) ["MT103", "A", "F20", "F20_TRN"]
      = some (.str "TEST-001")
  ∧ getPath (mt103_to_json msgScenario) ["MT103", "A", "F32A", "F32A_Date"]
      = some (.str "2024-01-01")
  ∧ getPath (mt103_to_json msgScenario) ["MT103", "A", "F32A", "F32A_Curr"]
      = some (.str "USD")
  ∧ getPath (mt103_to_json msgScenario) ["MT103", "A", "F32A", "F32A_Amount"]
      = some (.str "10000.00")
  ∧ getPath (mt103_to_json msgScenario) ["MT103", "A", "F71A", "F71A_ChargesCode"]
      = some (.str "SHA")
  ∧ getPath (mt103_to_json msgScenario) ["MT103", "LT_Address"]
      = some (.str "TESTBANK0XXX")
  ∧ getPath (mt103_to_json msgScenario) ["MT103", "Sequence_No"]
      = some (.str "000001")
  ∧ getPath (mt103_to_json msgScenario) ["MT103", "IO_ID"] = some (.str "I")
  ∧ getPath (mt103_to_json msgScenario) ["MT103", "Recipient"]
      = some (.str "TESTBANK1XXX")
  ∧ (getPath (mt103_to_json msgScenario) ["MT103", "A"]).isSome = true
  ∧ searchBraceGroup "3".data (pyStrip msgScenario).data = none
  ∧ searchBraceGroup "5".data (pyStrip msgScenario).data = none :=
  ⟨rfl, rfl, rfl, rfl, rfl, rfl, rfl, rfl, rfl, rfl, rfl, rfl⟩

/-- Claim C7 fails on the code: for a block 3 with nested sub-tag groups,
the splitter regex `{3:([^}]+)}` stops at the first closing brace, so the
captured block-3 content is `{108:TEST-REF-001` (no closing brace), the
sub-tag searches of `parse_user_header` all fail, and neither the MUR nor
the UETR key appears in the document — while the repository's own
integration test asserts `MUR = TEST-REF-001` for this very message. -/
theorem claim_C7_counterexample :
    searchBraceGroup "3".data (pyStrip msgNested3).data
      = some "\x7b108:TEST-REF-001".data
  ∧ parse_user_header "\x7b108:TEST-REF-001" = []
  ∧ getPath (mt103_to_json msgNested3) ["MT103", "MUR"] = none
  ∧ getPath (mt103_to_json msgNested3)
      ["MT103", "UniqueEndToEndTransactionReference_121"] = none :=
  ⟨rfl, rfl, rfl, rfl⟩

/-- Claim C10: `mt103_to_json` is total; every input yields a document with
the single top-level key `MT103`, and inputs with no recognizable block
(including the empty string) yield exactly the empty `MT103` object. -/
theorem claim_C10 :
    (∀ s : String, ∃ entries, mt103_to_json s = .obj [("MT103", .obj entries)])
  ∧ mt103_to_json "" = .obj [("MT103", .obj [])]
  ∧ mt103_to_json "no recognizable blocks at all" = .obj [("MT103", .obj [])] :=
  ⟨fun _ => ⟨_, rfl⟩, rfl, rfl⟩

/-- Claim C2: a repeatable tag (13C, 71F) occurring exactly once is stored
as a single object; occurring more than once, as an ordered list preserving
encounter order (the order `parse_field_13c` / the 71F scan deliver). -/
theorem claim_C2 (t : List Char) :
    (∀ ti, parse_field_13c ⟨t⟩ = [ti] →
        lookupA (aEntries t) "A1" = some (.obj [("F13C", ti)]))
  ∧ (∀ x y rest, parse_field_13c ⟨t⟩ = x :: y :: rest →
        lookupA (aEntries t) "A1" = some (.obj [("F13C", .arr (x :: y :: rest))]))
  ∧ (∀ c, finditerWith match71F t = [c] →
        lookupA (aEntries t) "A3" = some (.obj [("F71F", c)]))
  ∧ (∀ x y rest, finditerWith match71F t = x :: y :: rest →
        lookupA (aEntries t) "A3" = some (.obj [("F71F", .arr (x :: y :: rest))])) := by
  refine ⟨?_, ?_, ?_, ?_⟩
  · intro ti h
    rw [aEntries_at_A1]
    simp [a1E, h, lookupA_optSingle]
  · intro x y rest h
    rw [aEntries_at_A1]
    simp [a1E, h, lookupA_optSingle]
  · intro c h
    rw [aEntries_at_A3]
    simp [a3E, h, lookupA_optSingle]
  · intro x y rest h
    rw [aEntries_at_A3]
    simp [a3E, h, lookupA_optSingle]

/-- Witness for C2: one 13C occurrence yields a single object; two yield a
two-element list in encounter order. -/
theorem claim_C2_witness :
    lookupA (aEntries ":13C:/CLSTIME/0945+0100".data) "A1"
      = some (.obj [("F13C", .obj
          [("F13C_Code", .str "CLSTIME"), ("F13C_Time", .str "09:45:00"),
           ("F13C_Sign", .str "+"), ("F13C_Offset", .str "01:00:00")])])
  ∧ lookupA (aEntries ":13C:/A/1111+0000:13C:/B/2222-0100".data) "A1"
      = some (.obj [("F13C", .arr
          [.obj [("F13C_Code", .str "A"), ("F13C_Time", .str "11:11:00"),
                 ("F13C_Sign", .str "+"), ("F13C_Offset", .str "00:00:00")],
           .obj [("F13C_Code", .str "B"), ("F13C_Time", .str "22:22:00"),
                 ("F13C_Sign", .str "-"), ("F13C_Offset", .str "01:00:00")]])]) :=
  ⟨(claim_C2 _).1 _ rfl, (claim_C2 _).2.1 _ _ _ rfl⟩

/-- Claim C3: whenever the literal marker `:50F:` occurs anywhere in the
block-4 body, tag 50K is not attempted and no `F50K` key appears, whatever
a 50K span would decode to. -/
theorem claim_C3 (t : List Char) (h : containsSub ":50F:".data t = true) :
    f50kE t = [] ∧ lookupA (aEntries t) "F50K" = none := by
  have h1 : f50kE t = [] := by simp [f50kE, h]
  refine ⟨h1, ?_⟩
  rw [aEntries_at_F50K, h1]
  rfl

/-- Witness for C3: a body holding both a decodable 50K span and a trailing
`:50F:` marker whose own decode fails; `F50K` is still suppressed, showing
the choice follows textual presence, not decode success. -/
theorem claim_C3_witness :
    containsSub ":50F:".data ":20:X\n:50K:ABC\n:50F:".data = true
  ∧ lookupA (aEntries ":20:X\n:50K:ABC\n:50F:".data) "F50K" = none
  ∧ (searchLazyTag "50K".data ":20:X\n:50K:ABC\n:50F:".data).isSome = true
  ∧ f50fE ":20:X\n:50K:ABC\n:50F:".data = [] :=
  ⟨rfl, (claim_C3 ":20:X\n:50K:ABC\n:50F:".data rfl).2, rfl, rfl⟩

/-- Claim C4: the 56-family tries suffixes in the order A, C, D and the
57-family in the order A, B, C, D; the first suffix whose span is present
wins and the later suffixes are ignored even when present. -/
theorem claim_C4 (t : List Char) :
    ((searchLazyTag "56A".data t).isSome = true →
        lookupA (aEntries t) "F56A" = (searchLazyTag "56A".data t).map
            (fun vr => .obj [("F56A_Intermediary", .str (pyStrip ⟨vr.1⟩))])
      ∧ lookupA (aEntries t) "F56C" = none
      ∧ lookupA (aEntries t) "F56D" = none)
  ∧ (searchLazyTag "56A".data t = none → (searchLazyTag "56C".data t).isSome = true →
        lookupA (aEntries t) "F56C" = (searchLazyTag "56C".data t).map
            (fun vr => .obj [("F56C_Intermediary", .str (pyStrip ⟨vr.1⟩))])
      ∧ lookupA (aEntries t) "F56D" = none)
  ∧ (searchLazyTag "56A".data t = none → searchLazyTag "56C".data t = none →
        lookupA (aEntries t) "F56D" = (searchLazyTag "56D".data t).map
            (fun vr => .obj [("F56D_Intermediary", .str (pyStrip ⟨vr.1⟩))]))
  ∧ ((searchLazyTag "57A".data t).isSome = true →
        lookupA (aEntries t) "F57A" = (searchLazyTag "57A".data t).map
            (fun vr => .obj [("F57A_AccountWithInstitution", .str (pyStrip ⟨vr.1⟩))])
      ∧ lookupA (aEntries t) "F57B" = none
      ∧ lookupA (aEntries t) "F57C" = none
      ∧ lookupA (aEntries t) "F57D" = none)
  ∧ (searchLazyTag "57A".data t = none → (searchLazyTag "57B".data t).isSome = true →
        lookupA (aEntries t) "F57B" = (searchLazyTag "57B".data t).map
            (fun vr => .obj [("F57B_AccountWithInstitution", .str (pyStrip ⟨vr.1⟩))])
      ∧ lookupA (aEntries t) "F57C" = none
      ∧ lookupA (aEntries t) "F57D" = none)
  ∧ (searchLazyTag "57A".data t = none → searchLazyTag "57B".data t = none →
        (searchLazyTag "57C".data t).isSome = true →
        lookupA (aEntries t) "F57C" = (searchLazyTag "57C".data t).map
            (fun vr => .obj [("F57C_AccountWithInstitution", .str (pyStrip ⟨vr.1⟩))])
      ∧ lookupA (aEntries t) "F57D" = none)
  ∧ (searchLazyTag "57A".data t = none → searchLazyTag "57B".data t = none →
        searchLazyTag "57C".data t = none →
        lookupA (aEntries t) "F57D" = (searchLazyTag "57D".data t).map
            (fun vr => .obj [("F57D_AccountWithInstitution", .str (pyStrip ⟨vr.1⟩))])) := by
  refine ⟨?_, ?_, ?_, ?_, ?_, ?_, ?_⟩
  · intro hA
    rcases hA' : searchLazyTag "56A".data t with _ | vr
    · rw [hA'] at hA; simp at hA
    · refine ⟨?_, ?_, ?_⟩ <;> rw [aEntries_at_56 t _ (by simp)] <;>
        simp [field56, hA', lookupA]
  · intro hA hC
    rcases hC' : searchLazyTag "56C".data t with _ | vr
    · rw [hC'] at hC; simp at hC
    · refine ⟨?_, ?_⟩ <;> rw [aEntries_at_56 t _ (by simp)] <;>
        simp [field56, hA, hC', lookupA]
  · intro hA hC
    rcases hD' : searchLazyTag "56D".data t with _ | vr <;>
      rw [aEntries_at_56 t _ (by simp)] <;> simp [field56, hA, hC, hD', lookupA]
  · intro hA
    rcases hA' : searchLazyTag "57A".data t with _ | vr
    · rw [hA'] at hA; simp at hA
    · refine ⟨?_, ?_, ?_, ?_⟩ <;> rw [aEntries_at_57 t _ (by simp)] <;>
        simp [field57, hA', lookupA]
  · intro hA hB
    rcases hB' : searchLazyTag "57B".data t with _ | vr
    · rw [hB'] at hB; simp at hB
    · refine ⟨?_, ?_, ?_⟩ <;> rw [aEntries_at_57 t _ (by simp)] <;>
        simp [field57, hA, hB', lookupA]
  · intro hA hB hC
    rcases hC' : searchLazyTag "57C".data t with _ | vr
    · rw [hC'] at hC; simp at hC
    · refine ⟨?_, ?_⟩ <;> rw [aEntries_at_57 t _ (by simp)] <;>
        simp [field57, hA, hB, hC', lookupA]
  · intro hA hB hC
    rcases hD' : searchLazyTag "57D".data t with _ | vr <;>
      rw [aEntries_at_57 t _ (by simp)] <;> simp [field57, hA, hB, hC, hD', lookupA]

/-- Witness for C4: a body holding both a 56A and a 56D span produces
output using only the 56A decode. -/
theorem claim_C4_witness :
    lookupA (aEntries ":56A:BANKBIC\n:56D:SOME BANK\n:59:X".data) "F56A"
      = some (.obj [("F56A_Intermediary", .str "BANKBIC")])
  ∧ lookupA (aEntries ":56A:BANKBIC\n:56D:SOME BANK\n:59:X".data) "F56D" = none
  ∧ (searchLazyTag "56D".data ":56A:BANKBIC\n:56D:SOME BANK\n:59:X".data).isSome
      = true := by
  obtain ⟨h1, _, h3⟩ := (claim_C4 ":56A:BANKBIC\n:56D:SOME BANK\n:59:X".data).1 rfl
  exact ⟨h1.trans rfl, h3, rfl⟩

/-- Claim C5: for every 6-character digit string, the date decoder applies
the century pivot — a two-digit year ≤ 50 maps to 20xx, ≥ 51 to 19xx —
producing `YYYY-MM-DD`. -/
theorem claim_C5 (s : String) (h6 : s.length = 6)
    (_hd : ∀ c ∈ s.data, c.isDigit = true) :
    (twoDigitVal s.data ≤ 50 →
       parse_date s = ⟨(Nat.repr (2000 + twoDigitVal s.data)).data ++
         '-' :: ((s.data.drop 2).take 2 ++ '-' :: (s.data.drop 4).take 2)⟩)
  ∧ (50 < twoDigitVal s.data →
       parse_date s = ⟨(Nat.repr (1900 + twoDigitVal s.data)).data ++
         '-' :: ((s.data.drop 2).take 2 ++ '-' :: (s.data.drop 4).take 2)⟩) := by
  constructor
  · intro hle
    simp [parse_date, h6, hle]
  · intro hgt
    have hn : ¬ twoDigitVal s.data ≤ 50 := by omega
    simp [parse_date, h6, hn]

/-- Witness for C5: the four pivot examples of the specification. -/
theorem claim_C5_witness :
    parse_date "091120" = "2009-11-20" ∧ parse_date "991231" = "1999-12-31"
  ∧ parse_date "500101" = "2050-01-01" ∧ parse_date "510101" = "1951-01-01" := by
  refine ⟨?_, ?_, ?_, rfl⟩
  · exact ((claim_C5 "091120" rfl (by decide)).1 (by decide)).trans rfl
  · exact ((claim_C5 "991231" rfl (by decide)).2 (by decide)).trans rfl
  · exact ((claim_C5 "500101" rfl (by decide)).1 (by decide)).trans rfl

/-- Claim C6: the amount decoder replaces every comma by a dot, and that is
exactly what reaches the document for the amounts captured by 32A, 33B and
71F. -/
theorem claim_C6 :
    (∀ s : String, (parse_amount s).data
        = s.data.map (fun c => if c = ',' then '.' else c))
  ∧ (∀ (t d cur amt : List Char), searchWith match32A t = some (d, cur, amt) →
       lookupA (aEntries t) "F32A" = some (.obj
         [("F32A_Date", .str (parse_date ⟨d⟩)), ("F32A_Curr", .str ⟨cur⟩),
          ("F32A_Amount", .str (parse_amount ⟨amt⟩))]))
  ∧ (∀ (t cur amt : List Char), searchWith match33B t = some (cur, amt) →
       lookupA (aEntries t) "F33B" = some (.obj
         [("F33B_Curr", .str ⟨cur⟩), ("F33B_Amount", .str (parse_amount ⟨amt⟩))]))
  ∧ (∀ (s rest : List Char) (c : JValue), match71F s = some (c, rest) →
       ∃ cur amt, c = .obj [("F71F_Curr", .str ⟨cur⟩),
                            ("F71F_Amount", .str (parse_amount ⟨amt⟩))])
  ∧ parse_amount "15000,11" = "15000.11" ∧ parse_amount "100,00" = "100.00" := by
  refine ⟨fun _ => rfl, ?_, ?_, ?_, rfl, rfl⟩
  · intro t d cur amt h
    rw [aEntries_at_F32A]
    simp [f32aE, h, lookupA_optSingle]
  · intro t cur amt h
    rw [aEntries_at_F33B]
    simp [f33bE, h, lookupA_optSingle]
  · intro s rest c hm
    unfold match71F at hm
    split at hm
    · split at hm
      · split at hm
        · simp at hm
        · simp only [Option.some.injEq, Prod.mk.injEq] at hm
          exact ⟨_, _, hm.1.symm⟩
      · simp at hm
    · simp at hm

/-- Witness for C6: the scenario's 32A span decodes `10000,00` to
`10000.00` in the document. -/
theorem claim_C6_witness :
    lookupA (aEntries ":32A:240101USD10000,00".data) "F32A" = some (.obj
      [("F32A_Date", .str "2024-01-01"), ("F32A_Curr", .str "USD"),
       ("F32A_Amount", .str "10000.00")]) :=
  (claim_C6.2.1 ":32A:240101USD10000,00".data "240101".data "USD".data
    "10000,00".data rfl).trans rfl

/-- Claim C8: a multi-line raw span runs from just after its tag delimiter
to immediately before the first position satisfying the recognized
tag-delimiter lookahead or the end-of-body condition; embedded characters
(newlines included) before that position all belong to the span, and a
position stops the span only when it starts a valid delimiter pattern or is
the body's end. -/
theorem claim_C8 (tag l v rest : List Char)
    (h : searchLazyTag tag l = some (v, rest)) :
    (∃ pre, l = pre ++ (':' :: (tag ++ [':'])) ++ v ++ rest)
  ∧ v ≠ []
  ∧ stopCond rest = true
  ∧ (∀ v1 v2, v = v1 ++ v2 → v1 ≠ [] → v2 ≠ [] → stopCond (v2 ++ rest) = false)
  ∧ (∀ s, stopCond s = true ↔ (tagDelimAt s = true ∨ s = [] ∨ s = ['\n'])) := by
  have hchar : ∀ s, stopCond s = true ↔ (tagDelimAt s = true ∨ s = [] ∨ s = ['\n']) := by
    intro s
    have hd : dollarAt s = true ↔ (s = [] ∨ s = ['\n']) := by
      match s with
      | [] => simp [dollarAt]
      | [c] =>
        by_cases hc : c = '\n'
        · subst hc; simp [dollarAt]
        · simp [dollarAt, hc]
      | c1 :: c2 :: tl => simp [dollarAt]
    simp [stopCond, Bool.or_eq_true, hd]
  have hP : ∀ s a, matchLazyTag tag s = some a →
      s = (':' :: (tag ++ [':'])) ++ (a.1 ++ a.2) ∧ a.1 ≠ [] ∧
        stopCond a.2 = true ∧
        (∀ v1 v2, a.1 = v1 ++ v2 → v1 ≠ [] → v2 ≠ [] →
            stopCond (v2 ++ a.2) = false) := by
    intro s a hm
    unfold matchLazyTag at hm
    rcases hs : stripLit (':' :: (tag ++ [':'])) s with _ | r
    · rw [hs] at hm; simp at hm
    · rw [hs] at hm
      have hm' : lazyCap r = some (a.1, a.2) := by simpa using hm
      obtain ⟨heq, hne, hst, hmin⟩ := lazyCap_spec hm'
      exact ⟨by rw [stripLit_eq hs, heq], hne, hst, hmin⟩
  obtain ⟨pre, suf, heq, hp⟩ := searchWith_ex (matchLazyTag tag) _ hP l (v, rest) h
  refine ⟨⟨pre, ?_⟩, hp.2.1, hp.2.2.1, hp.2.2.2, hchar⟩
  rw [heq, hp.1]
  simp

/-- Witness for C8: the span of tag 70 in a two-line remittance body keeps
its embedded newline and stops exactly at the following `:71A:` delimiter. -/
theorem claim_C8_witness :
    (∃ pre, ":70:LINE1\nLINE2\n:71A:SHA".data
        = pre ++ (':' :: ("70".data ++ [':'])) ++ "LINE1\nLINE2\n".data
            ++ ":71A:SHA".data)
  ∧ "LINE1\nLINE2\n".data ≠ []
  ∧ stopCond ":71A:SHA".data = true
  ∧ (∀ v1 v2, "LINE1\nLINE2\n".data = v1 ++ v2 → v1 ≠ [] → v2 ≠ [] →
        stopCond (v2 ++ ":71A:SHA".data) = false)
  ∧ (∀ s, stopCond s = true ↔ (tagDelimAt s = true ∨ s = [] ∨ s = ['\n'])) :=
  claim_C8 "70".data ":70:LINE1\nLINE2\n:71A:SHA".data "LINE1\nLINE2\n".data
    ":71A:SHA".data rfl

/-- Claim C9: the lenient policy — the document is always the independent
concatenation of the five per-block contributions (so a missing block only
removes its own keys), a missing block 1 contributes nothing, a malformed
fixed-width basic header yields no header fields, a missing block 4
contributes nothing, and a field whose content does not match its grammar
(tag 20 here) leaves its key absent; no case is a parse failure. -/
theorem claim_C9 (msg : String) :
    mt103_to_json msg = .obj [("MT103", .obj
      (headerPart (pyStrip msg).data ++ appPart (pyStrip msg).data ++
       userPart (pyStrip msg).data ++ textPart (pyStrip msg).data ++
       trailerPart (pyStrip msg).data))]
  ∧ (searchBraceGroup "1".data (pyStrip msg).data = none →
        headerPart (pyStrip msg).data = [])
  ∧ (∀ h : String, matchBasicHeader h.data = none → parse_basic_header h = [])
  ∧ (searchBlock4 (pyStrip msg).data = none → textPart (pyStrip msg).data = [])
  ∧ (∀ t : List Char, searchTokenTag "20".data t = none →
        lookupA (aEntries t) "F20" = none) := by
  refine ⟨mt103_decomp msg, ?_, ?_, ?_, ?_⟩
  · intro h
    simp [headerPart, h]
  · intro hs hm
    simp [parse_basic_header, hm]
  · intro h
    simp [textPart, h]
  · intro t ht
    rw [aEntries_at_F20]
    simp [f20E, ht, lookupA_optSingle]

/-- Witness for C9: a message lacking block 1 and block 4 still decodes
into a document; the missing blocks and a malformed basic header and an
absent tag 20 all yield empty contributions rather than failures. -/
theorem claim_C9_witness :
    mt103_to_json "\x7b2:I103TESTBANK1XXXN\x7d" = .obj [("MT103", .obj
      (headerPart (pyStrip "\x7b2:I103TESTBANK1XXXN\x7d").data ++
       appPart (pyStrip "\x7b2:I103TESTBANK1XXXN\x7d").data ++
       userPart (pyStrip "\x7b2:I103TESTBANK1XXXN\x7d").data ++
       textPart (pyStrip "\x7b2:I103TESTBANK1XXXN\x7d").data ++
       trailerPart (pyStrip "\x7b2:I103TESTBANK1XXXN\x7d").data))]
  ∧ headerPart (pyStrip "\x7b2:I103TESTBANK1XXXN\x7d").data = []
  ∧ parse_basic_header "NOT-A-HEADER" = []
  ∧ textPart (pyStrip "\x7b2:I103TESTBANK1XXXN\x7d").data = []
  ∧ lookupA (aEntries ":23B:CRED".data) "F20" = none := by
  obtain ⟨h1, h2, h3, h4, h5⟩ := claim_C9 "\x7b2:I103TESTBANK1XXXN\x7d"
  exact ⟨h1, h2 rfl, h3 "NOT-A-HEADER" rfl, h4 rfl, h5 ":23B:CRED".data rfl⟩

end MT103
